import Mathlib

/-!
Verification of the turkeyfeed aggregation script (`build_turkey_rss.py`).

The script is embedded shallowly:
* Python text is modelled as `List Char`; `str.lower()` is modelled
  character-wise by `pyLower` (exact on the ASCII letters and on the
  uppercase letters `Ü Ö Ä Ş Ç Ğ` that occur in this program's data;
  other characters are left unchanged).
* `re` word-boundary search (`\b(w1|w2|...)\b` with IGNORECASE over an
  already lowercased text) is modelled by `reWordSearch`: a match of one
  of the alternation words at some position whose two neighbouring
  characters (or string edges) are non-word characters.
* `datetime` values are modelled by `PyDatetime` (calendar components, a
  microsecond field and an optional UTC offset in seconds; `none` models
  a naive datetime).  Aware datetimes compare by instant, modelled by
  `toUTCMicros` (proleptic-Gregorian ordinal, as `datetime.toordinal`).
* `feedparser`, `dateutil.parser.parse` and the network are external
  collaborators: a run's inputs are the fetched documents
  (`Source`/`Feed`/`Entry`) and a free-text date parsing oracle
  `dtparse : Str → Option PyDatetime` (`none` models an exception).
* `hashlib.sha256(x).hexdigest()` is collision-free on every input that
  arises here, so the digest is modelled as an injective function of its
  input byte string, represented by the input itself (`fingerprint`).
* The module-level configuration constants are passed as a `Config`
  record, and the two `datetime.now(timezone.utc)` calls of one run are
  modelled by the single `now` field.
-/

namespace TurkeyFeed

/-- Python text, modelled as a list of characters. -/
abbrev Str := List Char

/-- Character-wise model of Python `str.lower()`.  Exact on ASCII and on
the uppercase letters with a one-character lowercase form that occur in
this program's patterns and data. -/
def pyLower (c : Char) : Char :=
  if c = 'Ü' then 'ü'
  else if c = 'Ö' then 'ö'
  else if c = 'Ä' then 'ä'
  else if c = 'Ş' then 'ş'
  else if c = 'Ç' then 'ç'
  else if c = 'Ğ' then 'ğ'
  else c.toLower

/-- Model of Python `str.lower()` on a whole string. -/
def lowerStr (s : Str) : Str := s.map pyLower

/-- Model of the regex word class `\w` (letters, digits, underscore) on
the alphabet exercised by this program. -/
def isWordChar (c : Char) : Bool :=
  c.isAlphanum || c = '_' ||
    c ∈ ['ü', 'ö', 'ä', 'ş', 'ç', 'ğ', 'ı', 'Ü', 'Ö', 'Ä', 'Ş', 'Ç', 'Ğ']

/-- The words of the alternation in `TURKISH_ADJ_PAT`
(`türkisch(?:e[rsnm]?|en|er)?|tuerkisch(?:e[rsnm]?|en|er)?|türke|tuerke|türkin|tuerkin`),
fully expanded. -/
def ADJ_WORDS : List Str :=
  ["türkisch", "türkische", "türkischer", "türkisches", "türkischen", "türkischem",
   "tuerkisch", "tuerkische", "tuerkischer", "tuerkisches", "tuerkischen", "tuerkischem",
   "türke", "tuerke", "türkin", "tuerkin"].map String.toList

/-- The words of the alternation in `COUNTRY_PAT`
(`\b(türkei|turkei|türkiye|turkey)\b`). -/
def COUNTRY_WORDS : List Str :=
  ["türkei", "turkei", "türkiye", "turkey"].map String.toList

/-- The `GAZETTEER` set of place names (a Python set literal; only
membership tests are performed on it, so a list is a faithful model). -/
def GAZETTEER : List Str :=
  ["istanbul", "ankara", "izmir", "bursa", "antalya", "adana", "konya", "gaziantep",
   "kayseri", "mersin", "eskisehir", "eskişehir", "diyarbakir", "diyarbakır",
   "sanliurfa", "şanlıurfa", "trabzon", "van", "erzurum", "malatya", "manisa",
   "balikesir", "balıkesir", "denizli", "tekirdag", "tekirdağ", "sivas", "hatay",
   "mardin", "batman", "sirnak", "şırnak", "bodrum", "marmaris", "cesme", "çeşme",
   "alanya", "fethiye", "kapadokya", "kappadokien", "cappadocia"].map String.toList

/-- The `DOMAIN_HINTS` tuple. -/
def DOMAIN_HINTS : List Str :=
  [".tr/", "//tr.", ".tr?"].map String.toList

/-- One word of a regex alternation matches at position `i` of `text`
with `\b` on both sides: the `w.length` characters starting at `i` are
exactly `w`, and the character before position `i` (if any) and the
character after the match (if any) are non-word characters. -/
def matchWordAt (text w : Str) (i : Nat) : Bool :=
  ((text.drop i).take w.length == w)
    && !(isWordChar ((text.take i).getLastD ' '))
    && !(isWordChar ((text.drop (i + w.length)).headD ' '))

/-- Model of `re.search` for a pattern `\b(w1|...|wn)\b` over `text`:
some alternation word matches with word boundaries at some position. -/
def reWordSearch (ws : List Str) (text : Str) : Bool :=
  (List.range (text.length + 1)).any (fun i => ws.any (fun w => matchWordAt text w i))

/-- The lowercased, space-padded text `f" {title} {summary} ".lower()`
that `looks_like_turkey` searches. -/
def relevantText (title summary : Str) : Str :=
  lowerStr ((' ' :: title) ++ (' ' :: summary) ++ [' '])

/-- Rule 1 of `looks_like_turkey`: `TURKISH_ADJ_PAT.search(text)`. -/
def adjRule (title summary : Str) : Bool :=
  reWordSearch ADJ_WORDS (relevantText title summary)

/-- Rule 2 of `looks_like_turkey`: `COUNTRY_PAT.search(text)`. -/
def countryRule (title summary : Str) : Bool :=
  reWordSearch COUNTRY_WORDS (relevantText title summary)

/-- Rule 3 of `looks_like_turkey`:
`any(f" {k} " in f" {text} " for k in GAZETTEER)`. -/
def gazetteerRule (title summary : Str) : Bool :=
  GAZETTEER.any (fun k =>
    decide (((' ' :: k) ++ [' ']) <:+: ((' ' :: relevantText title summary) ++ [' '])))

/-- Rule 4 of `looks_like_turkey`:
`any(h in link.lower() for h in DOMAIN_HINTS)`. -/
def domainRule (link : Str) : Bool :=
  DOMAIN_HINTS.any (fun h => decide (h <:+: lowerStr link))

/-- Embedding of `looks_like_turkey(title, summary, link)`: the four
rules are tried in order, the first that fires returns `True`, otherwise
the result is `False`. -/
def looks_like_turkey (title summary link : Str) : Bool :=
  if adjRule title summary then true
  else if countryRule title summary then true
  else if gazetteerRule title summary then true
  else if domainRule link then true
  else false

/-- The first six components of a `time.struct_time` as supplied by
feedparser in `published_parsed` / `updated_parsed` (`st[:6]`). -/
structure StructTime where
  year : Int
  month : Int
  day : Int
  hour : Int
  minute : Int
  second : Int
deriving DecidableEq, Repr

/-- Model of a Python `datetime.datetime`: calendar components, a
microsecond field and an optional UTC offset in seconds (`none` models a
naive datetime, `some 0` models `tzinfo=timezone.utc`). -/
structure PyDatetime where
  year : Int
  month : Int
  day : Int
  hour : Int
  minute : Int
  second : Int
  micro : Int
  tzOffset : Option Int
deriving DecidableEq, Repr

/-- Gregorian leap-year test, as `calendar.isleap`. -/
def isLeapYear (y : Int) : Bool :=
  (y % 4 == 0 && y % 100 != 0) || y % 400 == 0

/-- Number of days in a month of a given year. -/
def daysInMonth (y m : Int) : Int :=
  if m = 2 then (if isLeapYear y then 29 else 28)
  else if m = 4 ∨ m = 6 ∨ m = 9 ∨ m = 11 then 30
  else 31

/-- The range checks performed by the `datetime.datetime` constructor on
its date components (`MINYEAR = 1`, `MAXYEAR = 9999`). -/
def validYMD (y m d : Int) : Bool :=
  decide (1 ≤ y) && decide (y ≤ 9999) && decide (1 ≤ m) && decide (m ≤ 12)
    && decide (1 ≤ d) && decide (d ≤ daysInMonth y m)

/-- The range checks performed by the `datetime.datetime` constructor on
its time components. -/
def validHMS (h mi s : Int) : Bool :=
  decide (0 ≤ h) && decide (h < 24) && decide (0 ≤ mi) && decide (mi < 60)
    && decide (0 ≤ s) && decide (s < 60)

/-- Leap-year test on `Nat` (used by the ordinal computation; valid
years are at least 1, so `Nat` arithmetic is exact there). -/
def isLeapYearN (y : Nat) : Bool :=
  (y % 4 == 0 && y % 100 != 0) || y % 400 == 0

/-- Days in all years strictly before year `y` of the proleptic
Gregorian calendar, as in `datetime.date.toordinal`. -/
def natDaysBeforeYear (y : Nat) : Nat :=
  (y - 1) * 365 + (y - 1) / 4 - (y - 1) / 100 + (y - 1) / 400

/-- Days in the months of year `y` strictly before month `m`. -/
def natDaysBeforeMonth (y m : Nat) : Nat :=
  [0, 31, 59, 90, 120, 151, 181, 212, 243, 273, 304, 334].getD (m - 1) 0
    + (if 3 ≤ m && isLeapYearN y then 1 else 0)

/-- Model of `datetime.date.toordinal`: day number of a valid proleptic
Gregorian date, with 0001-01-01 as day 1. -/
def toOrdinal (y m d : Nat) : Nat :=
  natDaysBeforeYear y + natDaysBeforeMonth y m + d

/-- The instant of a `PyDatetime` in microseconds on one absolute scale
(aware Python datetimes compare and subtract by exactly this instant;
the wall clock is offset by the UTC offset, `getD 0` for the naive case,
which never reaches a comparison in this program). -/
def toUTCMicros (dt : PyDatetime) : Int :=
  ((toOrdinal dt.year.toNat dt.month.toNat dt.day.toNat : Int) * 86400
      + dt.hour * 3600 + dt.minute * 60 + dt.second) * 1000000
    + dt.micro - (dt.tzOffset.getD 0) * 1000000

/-- Model of `datetime.min.replace(tzinfo=timezone.utc)`. -/
def datetimeMin : PyDatetime := ⟨1, 1, 1, 0, 0, 0, 0, some 0⟩

/-- Model of `datetime(*st[:6], tzinfo=timezone.utc)`: `some` of the
aware datetime when the components are in range, `none` when the
constructor would raise (the `except` path of the caller). -/
def datetimeFromStruct (st : StructTime) : Option PyDatetime :=
  if validYMD st.year st.month st.day && validHMS st.hour st.minute st.second then
    some ⟨st.year, st.month, st.day, st.hour, st.minute, st.second, 0, some 0⟩
  else none

/-- One raw feedparser entry: exactly the fields the script reads.
`none` models an absent key (`e.get` returning `None`). -/
structure Entry where
  title : Option Str
  summary : Option Str
  subtitle : Option Str
  link : Option Str
  published_parsed : Option StructTime
  updated_parsed : Option StructTime
  published : Option Str
  updated : Option Str
deriving DecidableEq

/-- One iteration of the structured loop of `parse_date_from_entry` for
the value of `published_parsed` or `updated_parsed`: build the datetime
(`none` on a constructor exception), then return it only when its year
lies in `[2000, max_year]`; otherwise fall through to `none` so the next
candidate is tried. -/
def structuredCandidate (maxYear : Int) (ost : Option StructTime) : Option PyDatetime :=
  match ost with
  | none => none
  | some st =>
    match datetimeFromStruct st with
    | none => none
    | some dt => if 2000 ≤ dt.year ∧ dt.year ≤ maxYear then some dt else none

/-- One iteration of the text loop of `parse_date_from_entry` for the
value of `published` or `updated`: skip falsy values, call
`dateutil.parser.parse` (the oracle `dtparse`; `none` models an
exception), make a naive result aware as UTC, then apply the same year
bound. -/
def textCandidate (dtparse : Str → Option PyDatetime) (maxYear : Int)
    (os : Option Str) : Option PyDatetime :=
  match os with
  | none => none
  | some s =>
    if s = [] then none
    else
      match dtparse s with
      | none => none
      | some dt0 =>
        let dt := if dt0.tzOffset = none then { dt0 with tzOffset := some 0 } else dt0
        if 2000 ≤ dt.year ∧ dt.year ≤ maxYear then some dt else none

/-- Embedding of `parse_date_from_entry(e)`: the two structured
candidates then the two free-text candidates, in source order, first
success wins; `none` when every candidate fails or is absent.
`nowYear` is `datetime.now(timezone.utc).year`. -/
def parse_date_from_entry (dtparse : Str → Option PyDatetime) (nowYear : Int)
    (e : Entry) : Option PyDatetime :=
  (structuredCandidate (nowYear + 1) e.published_parsed).orElse fun _ =>
    (structuredCandidate (nowYear + 1) e.updated_parsed).orElse fun _ =>
      (textCandidate dtparse (nowYear + 1) e.published).orElse fun _ =>
        textCandidate dtparse (nowYear + 1) e.updated

/-- Microseconds of `timedelta(days=d)`. -/
def daysToMicros (d : Int) : Int := d * 86400000000

/-- Embedding of `is_recent(dt)`: false for `None`, otherwise
`datetime.now(timezone.utc) - dt <= timedelta(days=MAX_AGE_DAYS)`,
compared as exact microsecond quantities.  The globals are passed as
the parameters `maxAgeDays` and `nowMicros`. -/
def is_recent (maxAgeDays : Int) (nowMicros : Int) (odt : Option PyDatetime) : Bool :=
  match odt with
  | none => false
  | some dt => decide (nowMicros - toUTCMicros dt ≤ daysToMicros maxAgeDays)

/-- Model of `hashlib.sha256((title + link).encode("utf-8")).hexdigest()`.
SHA-256 is collision-free on the inputs arising here, so the digest is
modelled as an injective function of the concatenation, represented by
the concatenation itself. -/
def fingerprint (title link : Str) : Str := title ++ link

/-- The dedup step of the entry loop (`h = sha256(...); if h in seen:
continue; seen.add(h)`), extracted as the specification's
`accept(seen_set, title, link)`: returns the decision and the updated
seen set. -/
def accept (seen : List Str) (title link : Str) : Bool × List Str :=
  let h := fingerprint title link
  if h ∈ seen then (false, seen) else (true, h :: seen)

/-- One normalized output item, as appended to `items` in `build_feed`. -/
structure Item where
  title : Str
  link : Str
  summary : Str
  source : Str
  published : Option PyDatetime
deriving DecidableEq

/-- One parsed feed document: the optional feed-level title
(`feed.feed.get("title", url)`) and its entries in document order.
The `bozo` flag only drives logging, so it is not modelled. -/
structure Feed where
  ftitle : Option Str
  entries : List Entry
deriving DecidableEq

/-- One configured source together with the outcome of fetching it:
`none` models `feedparser.parse` raising (the `except` branch). -/
structure Source where
  url : Str
  fetched : Option Feed
deriving DecidableEq

/-- The run's configuration and environment: the module constants
`MAX_AGE_DAYS` and `MAX_ITEMS`, the free-text date parsing oracle, and
the run's current time. -/
structure Config where
  maxAgeDays : Int
  maxItems : Nat
  dtparse : Str → Option PyDatetime
  now : PyDatetime

/-- Default `MAX_AGE_DAYS` of the script. -/
def MAX_AGE_DAYS : Int := 14

/-- Default `MAX_ITEMS` of the script. -/
def MAX_ITEMS : Nat := 150

/-- The run-scoped mutable state of `build_feed`: the seen fingerprints
and the working item collection. -/
structure PipeState where
  seen : List Str
  items : List Item
deriving DecidableEq

/-- Model of `e.get("title") or ""`: absent and empty both yield the
empty string. -/
def entryTitle (e : Entry) : Str := e.title.getD []

/-- Model of `e.get("summary") or e.get("subtitle", "") or ""`: the
summary if truthy, else the subtitle if truthy, else empty. -/
def entrySummary (e : Entry) : Str :=
  let s1 := e.summary.getD []
  if s1 ≠ [] then s1 else e.subtitle.getD []

/-- Model of `e.get("link") or ""`. -/
def entryLink (e : Entry) : Str := e.link.getD []

/-- The body of the per-entry loop of `build_feed`: skip when title and
summary are both empty, skip on classifier rejection, skip on freshness
rejection (including the no-date case), skip on a repeated fingerprint;
otherwise record the fingerprint and append the normalized item. -/
def processEntry (cfg : Config) (source : Str) (st : PipeState) (e : Entry) : PipeState :=
  let title := entryTitle e
  let summary := entrySummary e
  let link := entryLink e
  if title = [] ∧ summary = [] then st
  else if looks_like_turkey title summary link = false then st
  else
    let pub := parse_date_from_entry cfg.dtparse cfg.now.year e
    if is_recent cfg.maxAgeDays (toUTCMicros cfg.now) pub = false then st
    else
      let r := accept st.seen title link
      if r.1 then ⟨r.2, st.items ++ [⟨title, link, summary, source, pub⟩]⟩
      else st

/-- The body of the per-source loop of `build_feed`: a failed fetch is
skipped entirely (`continue`); otherwise the source label is the
feed-level title with the url as default, and the entries are processed
in document order. -/
def processSource (cfg : Config) (st : PipeState) (src : Source) : PipeState :=
  match src.fetched with
  | none => st
  | some feed => feed.entries.foldl (processEntry cfg (feed.ftitle.getD src.url)) st

/-- The working collection and seen set after all sources are
processed, from an initially empty state. -/
def collectItems (cfg : Config) (sources : List Source) : PipeState :=
  sources.foldl (processSource cfg) ⟨[], []⟩

/-- The sort key of `items.sort`:
`x["published"] or datetime.min.replace(tzinfo=timezone.utc)`, compared
as an instant. -/
def sortKey (it : Item) : Int :=
  match it.published with
  | some dt => toUTCMicros dt
  | none => toUTCMicros datetimeMin

/-- The comparison `items.sort(key=..., reverse=True)` sorts under:
`a` may precede `b` iff `a`'s key is at least `b`'s key. -/
def itemLE (a b : Item) : Prop := sortKey b ≤ sortKey a

instance : DecidableRel itemLE :=
  fun a b => inferInstanceAs (Decidable (sortKey b ≤ sortKey a))

instance : IsTotal Item itemLE := ⟨fun a b => le_total (sortKey b) (sortKey a)⟩

instance : IsTrans Item itemLE := ⟨fun _ _ _ hab hbc => le_trans hbc hab⟩

/-- Model of `items.sort(key=..., reverse=True)`: a stable sort under
the total preorder `itemLE` (Python's sort is stable, and `reverse=True`
reverses the comparisons, not the list; a stable sort of a list under a
total preorder is unique, so any stable sorting algorithm is a faithful
model of Python's). -/
def sortItems (l : List Item) : List Item :=
  l.insertionSort itemLE

/-- Embedding of the aggregation core of `build_feed()`: process every
source, sort the collected items by timestamp descending and truncate to
`maxItems`.  The rendering of the result into an RSS document is the
external Output Sink. -/
def build_feed (cfg : Config) (sources : List Source) : List Item :=
  (sortItems (collectItems cfg sources).items).take cfg.maxItems

/-- A free-text date parsing oracle under which every text parse fails;
used by the concrete scenarios, whose entries carry structured dates. -/
def dtparseNone : Str → Option PyDatetime := fun _ => none

/-- The current time of the concrete scenarios: 2025-01-10 00:00:00 UTC. -/
def scenNow : PyDatetime := ⟨2025, 1, 10, 0, 0, 0, 0, some 0⟩

/-- Configuration of the concrete scenarios that keep the script's
default `MAX_ITEMS`. -/
def scenCfg : Config := ⟨14, 150, dtparseNone, scenNow⟩

/-- Scenario C configuration: `MAX_ITEMS = 2`. -/
def scenCCfg : Config := ⟨14, 2, dtparseNone, scenNow⟩

/-- Scenario C entry dated 2025-01-03. -/
def entC3 : Entry :=
  ⟨some ("Türkei drei".toList), none, none, some ("https://ex.de/3".toList),
    some ⟨2025, 1, 3, 0, 0, 0⟩, none, none, none⟩

/-- Scenario C entry dated 2025-01-01. -/
def entC1 : Entry :=
  ⟨some ("Türkei eins".toList), none, none, some ("https://ex.de/1".toList),
    some ⟨2025, 1, 1, 0, 0, 0⟩, none, none, none⟩

/-- Scenario C entry dated 2025-01-02. -/
def entC2 : Entry :=
  ⟨some ("Türkei zwei".toList), none, none, some ("https://ex.de/2".toList),
    some ⟨2025, 1, 2, 0, 0, 0⟩, none, none, none⟩

/-- Scenario C sources: one feed yielding the three qualifying entries
in the order 2025-01-03, 2025-01-01, 2025-01-02. -/
def scenCSources : List Source :=
  [⟨"https://src.de/c".toList, some ⟨some ("Quelle".toList), [entC3, entC1, entC2]⟩⟩]

/-- The normalized item produced from `entC3`. -/
def itemC3 : Item :=
  ⟨"Türkei drei".toList, "https://ex.de/3".toList, [], "Quelle".toList,
    some ⟨2025, 1, 3, 0, 0, 0, 0, some 0⟩⟩

/-- The normalized item produced from `entC2`. -/
def itemC2 : Item :=
  ⟨"Türkei zwei".toList, "https://ex.de/2".toList, [], "Quelle".toList,
    some ⟨2025, 1, 2, 0, 0, 0, 0, some 0⟩⟩

/-- Scenario A first entry: title "Erdbeben nahe Istanbul". -/
def entA1 : Entry :=
  ⟨some ("Erdbeben nahe Istanbul".toList), none, none, some ("https://ex.de/erdbeben".toList),
    some ⟨2025, 1, 3, 0, 0, 0⟩, none, none, none⟩

/-- Scenario A second entry: identical title and link, all other fields
different (another summary and another timestamp). -/
def entA2 : Entry :=
  ⟨some ("Erdbeben nahe Istanbul".toList), some ("Anderer Text".toList), none,
    some ("https://ex.de/erdbeben".toList), some ⟨2025, 1, 4, 12, 30, 0⟩, none, none, none⟩

/-- Scenario A sources: two feeds, each yielding one of the two entries
with identical title and link. -/
def scenASources : List Source :=
  [⟨"https://src.de/a1".toList, some ⟨some ("Q1".toList), [entA1]⟩⟩,
   ⟨"https://src.de/a2".toList, some ⟨some ("Q2".toList), [entA2]⟩⟩]

/-- The single item scenario A produces (from the first source). -/
def itemA : Item :=
  ⟨"Erdbeben nahe Istanbul".toList, "https://ex.de/erdbeben".toList, [], "Q1".toList,
    some ⟨2025, 1, 3, 0, 0, 0, 0, some 0⟩⟩

/-- Collision scenario first entry: title "Türkei x", link "y". -/
def entX1 : Entry :=
  ⟨some ("Türkei x".toList), none, none, some ("y".toList),
    some ⟨2025, 1, 3, 0, 0, 0⟩, none, none, none⟩

/-- Collision scenario second entry: title "Türkei", link " xy" — both
fields differ from `entX1`, but the concatenations agree. -/
def entX2 : Entry :=
  ⟨some ("Türkei".toList), none, none, some (" xy".toList),
    some ⟨2025, 1, 4, 0, 0, 0⟩, none, none, none⟩

/-- Collision scenario sources. -/
def scenXSources : List Source :=
  [⟨"https://src.de/x".toList, some ⟨none, [entX1, entX2]⟩⟩]

/-- The single item the collision scenario produces. -/
def itemX1 : Item :=
  ⟨"Türkei x".toList, "y".toList, [], "https://src.de/x".toList,
    some ⟨2025, 1, 3, 0, 0, 0, 0, some 0⟩⟩

/-! ## General lemmas -/

theorem isWordChar_space : isWordChar ' ' = false := by decide

theorem pyLower_space : pyLower ' ' = ' ' := by decide

/-- If some alternation word occurs in `text` with a literal space on
each side, the word-boundary search succeeds. -/
theorem reWordSearch_of_spaced {w text : Str} {ws : List Str}
    (hw : w ∈ ws) (h : ((' ' :: w) ++ [' ']) <:+: text) :
    reWordSearch ws text = true := by
  obtain ⟨l, r, htext⟩ := h
  have hB : text = (l ++ [' ']) ++ (w ++ ' ' :: r) := by
    rw [← htext]; simp
  have hA : text = ((l ++ [' ']) ++ w) ++ ' ' :: r := by
    rw [← htext]; simp
  have h1 : (text.drop (l.length + 1)).take w.length = w := by
    rw [hB, List.drop_left' (by simp), List.take_left]
  have h2 : (text.take (l.length + 1)).getLastD ' ' = ' ' := by
    rw [hB, List.take_left' (by simp), List.getLastD_concat]
  have h3 : (text.drop (l.length + 1 + w.length)).headD ' ' = ' ' := by
    rw [hA, List.drop_left'
      (by simp only [List.length_append, List.length_cons, List.length_nil])]
    rfl
  have hm : matchWordAt text w (l.length + 1) = true := by
    unfold matchWordAt
    rw [h2, h3, h1]
    simp [isWordChar_space]
  have hi : l.length + 1 < text.length + 1 := by
    rw [hB]; simp
  unfold reWordSearch
  rw [List.any_eq_true]
  exact ⟨l.length + 1, List.mem_range.mpr hi, List.any_eq_true.mpr ⟨w, hw, hm⟩⟩

/-- An adjectival-pattern word surrounded by spaces inside the padded
lowercased text makes rule 1 fire. -/
theorem adjRule_of_spaced {title summary w : Str} (hw : w ∈ ADJ_WORDS)
    (h : ((' ' :: w) ++ [' ']) <:+: relevantText title summary) :
    adjRule title summary = true :=
  reWordSearch_of_spaced hw h

/-- Inserting a word (space-delimited) into the title puts its
lowercased form, surrounded by spaces, into the searched text. -/
theorem spaced_relevantText_title (t1 w t2 s : Str) :
    ((' ' :: w.map pyLower) ++ [' ']) <:+: relevantText (t1 ++ ' ' :: w ++ ' ' :: t2) s := by
  refine ⟨' ' :: t1.map pyLower,
    (t2.map pyLower ++ ' ' :: s.map pyLower) ++ [' '], ?_⟩
  simp [relevantText, lowerStr, pyLower_space]

/-- Inserting a word (space-delimited) into the summary puts its
lowercased form, surrounded by spaces, into the searched text. -/
theorem spaced_relevantText_summary (t s1 w s2 : Str) :
    ((' ' :: w.map pyLower) ++ [' ']) <:+: relevantText t (s1 ++ ' ' :: w ++ ' ' :: s2) := by
  refine ⟨(' ' :: t.map pyLower) ++ ' ' :: s1.map pyLower,
    (s2.map pyLower) ++ [' '], ?_⟩
  simp [relevantText, lowerStr, pyLower_space]

/-- The sorted working collection is ordered by non-increasing sort key. -/
theorem sortItems_sorted (l : List Item) :
    (sortItems l).Pairwise fun a b => sortKey b ≤ sortKey a :=
  List.sorted_insertionSort itemLE l

/-- Stability of the sort: the subsequence of items with any fixed sort
key is unchanged, i.e. items with equal timestamps keep their relative
input order. -/
theorem sortItems_stable (l : List Item) (k : Int) :
    (sortItems l).filter (fun it => sortKey it == k)
      = l.filter (fun it => sortKey it == k) := by
  have hc : (l.filter (fun it => sortKey it == k)).Pairwise itemLE := by
    apply List.pairwise_of_forall_mem_list
    intro a ha b hb
    have ha' := (List.mem_filter.mp ha).2
    have hb' := (List.mem_filter.mp hb).2
    simp only [beq_iff_eq] at ha' hb'
    simp [itemLE, ha', hb']
  have hsub : List.Sublist (l.filter (fun it => sortKey it == k)) (sortItems l) :=
    List.sublist_insertionSort hc (List.filter_sublist l)
  have hself : (l.filter (fun it => sortKey it == k)).filter (fun it => sortKey it == k)
      = l.filter (fun it => sortKey it == k) :=
    List.filter_eq_self.mpr fun a ha => (List.mem_filter.mp ha).2
  have hsub2 : List.Sublist (l.filter (fun it => sortKey it == k))
      ((sortItems l).filter (fun it => sortKey it == k)) := by
    have h := hsub.filter (fun it => sortKey it == k)
    rwa [hself] at h
  have hperm : List.Perm ((sortItems l).filter (fun it => sortKey it == k))
      (l.filter (fun it => sortKey it == k)) :=
    (List.perm_insertionSort itemLE l).filter _
  exact (hsub2.eq_of_length hperm.length_eq.symm).symm

/-! ## C2 -/

/-- C2: `looks_like_turkey` returns true iff at least one of the four
rules fires, the rules being tried in order (adjectival word-boundary
match, country word-boundary match, gazetteer space-delimited whole
word, link domain-hint substring), all over the lowercased padded text;
and adding a target-country adjectival inflection as a space-delimited
word anywhere in the title or the summary forces the result to true
regardless of all other content. -/
theorem C2_relevance_classifier :
    (∀ title summary link,
        looks_like_turkey title summary link =
          (adjRule title summary || countryRule title summary ||
            gazetteerRule title summary || domainRule link))
    ∧ (∀ title summary link w, w ∈ ADJ_WORDS →
        ((' ' :: w) ++ [' ']) <:+: relevantText title summary →
        looks_like_turkey title summary link = true)
    ∧ (∀ t1 w t2 summary link, w.map pyLower ∈ ADJ_WORDS →
        looks_like_turkey (t1 ++ ' ' :: w ++ ' ' :: t2) summary link = true)
    ∧ (∀ title s1 w s2 link, w.map pyLower ∈ ADJ_WORDS →
        looks_like_turkey title (s1 ++ ' ' :: w ++ ' ' :: s2) link = true) := by
  have hadj : ∀ title summary link, adjRule title summary = true →
      looks_like_turkey title summary link = true := by
    intro title summary link h
    simp [looks_like_turkey, h]
  refine ⟨?_, ?_, ?_, ?_⟩
  · intro title summary link
    cases h1 : adjRule title summary <;>
      cases h2 : countryRule title summary <;>
        cases h3 : gazetteerRule title summary <;>
          cases h4 : domainRule link <;>
            simp [looks_like_turkey, h1, h2, h3, h4]
  · intro title summary link w hw hinf
    exact hadj _ _ _ (adjRule_of_spaced hw hinf)
  · intro t1 w t2 summary link hw
    exact hadj _ _ _ (adjRule_of_spaced hw (spaced_relevantText_title t1 w t2 summary))
  · intro title s1 w s2 link hw
    exact hadj _ _ _ (adjRule_of_spaced hw (spaced_relevantText_summary title s1 w s2))

/-- Witness for C2: inserting the inflected form "TÜRKISCHE" as a word
into an otherwise unrelated title yields relevance. -/
theorem C2_relevance_classifier_witness :
    (("TÜRKISCHE".toList : Str).map pyLower ∈ ADJ_WORDS
      ∧ looks_like_turkey
          (("Katzen".toList : Str) ++ ' ' :: ("TÜRKISCHE".toList : Str) ++ ' ' :: ("Politik".toList : Str))
          ("Sonst nichts".toList) ("https://example.de/a".toList) = true) :=
  ⟨by decide,
    C2_relevance_classifier.2.2.1 ("Katzen".toList) ("TÜRKISCHE".toList) ("Politik".toList)
      ("Sonst nichts".toList) ("https://example.de/a".toList) (by decide)⟩

/-! ## C3 -/

/-- C3: the date normalizer tries the candidates in priority order
(structured publish time, structured update time, free-text publish
date, free-text update date) with first success winning; a candidate
with year before 2000 or beyond `current_year + 1` is rejected and the
next candidate is tried; a valid structured publish time with year in
`[2000, current_year + 1]` is returned as exactly that UTC instant; and
when every candidate is absent or fails the result is `none` (the
normalizer is a total function, so it never raises). -/
theorem C3_date_normalizer :
    (∀ dtparse nowYear e,
        parse_date_from_entry dtparse nowYear e =
          ((structuredCandidate (nowYear + 1) e.published_parsed).orElse fun _ =>
            (structuredCandidate (nowYear + 1) e.updated_parsed).orElse fun _ =>
              (textCandidate dtparse (nowYear + 1) e.published).orElse fun _ =>
                textCandidate dtparse (nowYear + 1) e.updated))
    ∧ (∀ dtparse nowYear e st dt,
        e.published_parsed = some st → datetimeFromStruct st = some dt →
        2000 ≤ st.year → st.year ≤ nowYear + 1 →
        parse_date_from_entry dtparse nowYear e = some dt
          ∧ dt = ⟨st.year, st.month, st.day, st.hour, st.minute, st.second, 0, some 0⟩)
    ∧ (∀ maxYear st, (st.year < 2000 ∨ maxYear < st.year) →
        structuredCandidate maxYear (some st) = none)
    ∧ (∀ dtparse maxYear s dt0, dtparse s = some dt0 →
        (dt0.year < 2000 ∨ maxYear < dt0.year) →
        textCandidate dtparse maxYear (some s) = none)
    ∧ (∀ dtparse nowYear e,
        e.published_parsed = none → e.updated_parsed = none →
        e.published = none → e.updated = none →
        parse_date_from_entry dtparse nowYear e = none) := by
  have hyear : ∀ st dt, datetimeFromStruct st = some dt → dt = ⟨st.year, st.month,
      st.day, st.hour, st.minute, st.second, 0, some 0⟩ := by
    intro st dt h
    by_cases hv : (validYMD st.year st.month st.day
        && validHMS st.hour st.minute st.second) = true
    · simp only [datetimeFromStruct, hv, if_true, Option.some.injEq] at h
      exact h.symm
    · simp [datetimeFromStruct, hv] at h
  refine ⟨fun _ _ _ => rfl, ?_, ?_, ?_, ?_⟩
  · intro dtparse nowYear e st dt hpp hdt h1 h2
    have hdt' := hyear st dt hdt
    refine ⟨?_, hdt'⟩
    have hy : dt.year = st.year := by rw [hdt']
    unfold parse_date_from_entry
    rw [hpp]
    simp only [structuredCandidate, hdt, hy]
    rw [if_pos ⟨h1, h2⟩]
    rfl
  · intro maxYear st h
    by_cases hv : (validYMD st.year st.month st.day
        && validHMS st.hour st.minute st.second) = true
    · simp only [structuredCandidate, datetimeFromStruct, hv, if_true]
      rw [if_neg]
      rintro ⟨ha, hb⟩
      rcases h with h | h <;> omega
    · simp [structuredCandidate, datetimeFromStruct, hv]
  · intro dtparse maxYear s dt0 hdt h
    by_cases hs : s = []
    · simp [textCandidate, hs]
    · have hy : (if dt0.tzOffset = none then ({ dt0 with tzOffset := some 0 } : PyDatetime)
          else dt0).year = dt0.year := by
        by_cases ht : dt0.tzOffset = none <;> simp [ht]
      have hcond : ¬(2000 ≤ (if dt0.tzOffset = none
            then ({ dt0 with tzOffset := some 0 } : PyDatetime) else dt0).year
          ∧ (if dt0.tzOffset = none
            then ({ dt0 with tzOffset := some 0 } : PyDatetime) else dt0).year ≤ maxYear) := by
        rw [hy]
        rintro ⟨ha, hb⟩
        rcases h with h | h <;> omega
      unfold textCandidate
      dsimp only
      rw [if_neg hs, hdt]
      dsimp only
      rw [if_neg hcond]
  · intro dtparse nowYear e h1 h2 h3 h4
    unfold parse_date_from_entry
    rw [h1, h2, h3, h4]
    rfl

/-- Witness for C3: the scenario entry dated 2025-01-03 is normalized,
with `current_year = 2025`, to exactly 2025-01-03 00:00:00 UTC. -/
theorem C3_date_normalizer_witness :
    parse_date_from_entry dtparseNone 2025 entC3
        = some ⟨2025, 1, 3, 0, 0, 0, 0, some 0⟩
      ∧ (⟨2025, 1, 3, 0, 0, 0, 0, some 0⟩ : PyDatetime)
        = ⟨2025, 1, 3, 0, 0, 0, 0, some 0⟩ :=
  C3_date_normalizer.2.1 dtparseNone 2025 entC3 ⟨2025, 1, 3, 0, 0, 0⟩
    ⟨2025, 1, 3, 0, 0, 0, 0, some 0⟩ rfl (by decide) (by decide) (by decide)

/-! ## C4 -/

/-- C4: the freshness filter is false for a missing timestamp; for a
present timestamp it is true iff `now - timestamp` is at most `max_age`
days, so future timestamps (negative age) are accepted; concretely, a
timestamp 13 days old is recent, one 15 days old is not, and one an hour
in the future is recent, always with `max_age = 14` days. -/
theorem C4_freshness :
    (∀ maxAge now, is_recent maxAge now none = false)
    ∧ (∀ maxAge now dt,
        is_recent maxAge now (some dt) = decide (now - toUTCMicros dt ≤ daysToMicros maxAge))
    ∧ (∀ now dt, toUTCMicros dt = now - daysToMicros 13 → is_recent 14 now (some dt) = true)
    ∧ (∀ now dt, toUTCMicros dt = now - daysToMicros 15 → is_recent 14 now (some dt) = false)
    ∧ (∀ now dt, toUTCMicros dt = now + 3600000000 → is_recent 14 now (some dt) = true)
    ∧ (∀ now dt, now < toUTCMicros dt → is_recent 14 now (some dt) = true) := by
  refine ⟨fun _ _ => rfl, fun _ _ _ => rfl, ?_, ?_, ?_, ?_⟩
  · intro now dt h
    simp only [is_recent, h, daysToMicros, decide_eq_true_eq]
    omega
  · intro now dt h
    simp only [is_recent, h, daysToMicros, decide_eq_false_iff_not]
    omega
  · intro now dt h
    simp only [is_recent, h, daysToMicros, decide_eq_true_eq]
    omega
  · intro now dt h
    simp only [is_recent, daysToMicros, decide_eq_true_eq]
    omega

/-- Witness for C4: 2025-01-01 00:00 UTC is 13 days old at
2025-01-14 00:00 UTC and accepted as recent. -/
theorem C4_freshness_witness :
    is_recent 14 (toUTCMicros ⟨2025, 1, 14, 0, 0, 0, 0, some 0⟩)
      (some ⟨2025, 1, 1, 0, 0, 0, 0, some 0⟩) = true :=
  C4_freshness.2.2.1 (toUTCMicros ⟨2025, 1, 14, 0, 0, 0, 0, some 0⟩)
    ⟨2025, 1, 1, 0, 0, 0, 0, some 0⟩ (by decide)

/-! ## C5 -/

/-- C5: if the digest of `(title, link)` is already in the seen set,
`accept` rejects and leaves the set unchanged; otherwise it inserts the
digest and accepts.  Consequently the same pair is accepted then
rejected, and two pairs sharing a title but differing in link are both
accepted. -/
theorem C5_dedup :
    (∀ seen title link, fingerprint title link ∈ seen →
        accept seen title link = (false, seen))
    ∧ (∀ seen title link, fingerprint title link ∉ seen →
        accept seen title link = (true, fingerprint title link :: seen))
    ∧ (∀ seen title link, fingerprint title link ∉ seen →
        (accept seen title link).1 = true
          ∧ (accept (accept seen title link).2 title link).1 = false)
    ∧ (∀ seen title l1 l2, l1 ≠ l2 →
        fingerprint title l1 ∉ seen → fingerprint title l2 ∉ seen →
        (accept seen title l1).1 = true
          ∧ (accept (accept seen title l1).2 title l2).1 = true) := by
  refine ⟨?_, ?_, ?_, ?_⟩
  · intro seen title link h
    simp [accept, h]
  · intro seen title link h
    simp [accept, h]
  · intro seen title link h
    simp [accept, h]
  · intro seen title l1 l2 hne h1 h2
    have hfp : fingerprint title l2 ≠ fingerprint title l1 := by
      simp only [fingerprint]
      intro hc
      exact hne (List.append_cancel_left hc).symm
    simp [accept, h1, h2, hfp]

/-- Witness for C5: with an empty seen set, the pair is accepted, its
repetition rejected, and a second pair sharing the title but with a
different link is accepted as well. -/
theorem C5_dedup_witness :
    ((accept [] ("Titel".toList) ("l1".toList)).1 = true
      ∧ (accept (accept [] ("Titel".toList) ("l1".toList)).2 ("Titel".toList) ("l1".toList)).1 = false)
    ∧ ((accept [] ("Titel".toList) ("l1".toList)).1 = true
      ∧ (accept (accept [] ("Titel".toList) ("l1".toList)).2 ("Titel".toList) ("l2".toList)).1 = true) :=
  ⟨C5_dedup.2.2.1 [] ("Titel".toList) ("l1".toList) (by decide),
    C5_dedup.2.2.2 [] ("Titel".toList) ("l1".toList) ("l2".toList)
      (by decide) (by decide) (by decide)⟩

/-! ## C6 -/

/-- C6: a source whose fetch fails is skipped without any effect on the
run — the pipeline state is unchanged by it, and the output of a run
containing the failing source equals the output of the same run without
it, so items of all other sources still appear; the pipeline is a total
function, so nothing escapes to the caller but the result. -/
theorem C6_failed_source_skipped :
    (∀ cfg st url, processSource cfg st ⟨url, none⟩ = st)
    ∧ (∀ cfg pre url suf,
        build_feed cfg (pre ++ ⟨url, none⟩ :: suf) = build_feed cfg (pre ++ suf)) := by
  refine ⟨fun _ _ _ => rfl, ?_⟩
  intro cfg pre url suf
  unfold build_feed collectItems
  rw [List.foldl_append, List.foldl_append]
  rfl

/-! ## C8 -/

/-- C8: the pipeline is a deterministic function of its inputs — two
runs over equal configurations (current time included) and equal fetched
source documents produce identical results: same items, same order and
hence same length. -/
theorem C8_determinism :
    ∀ cfg1 cfg2 srcs1 srcs2, cfg1 = cfg2 → srcs1 = srcs2 →
      build_feed cfg1 srcs1 = build_feed cfg2 srcs2
        ∧ (build_feed cfg1 srcs1).length = (build_feed cfg2 srcs2).length := by
  intro cfg1 cfg2 srcs1 srcs2 h1 h2
  subst h1
  subst h2
  exact ⟨rfl, rfl⟩

/-- Witness for C8 at the scenario A inputs. -/
theorem C8_determinism_witness :
    build_feed scenCfg scenASources = build_feed scenCfg scenASources :=
  (C8_determinism scenCfg scenCfg scenASources scenASources rfl rfl).1

/-! ## C1 -/

/-- C1: after all sources are processed, the pipeline stably sorts the
working collection by normalized timestamp descending — the key of an
item without timestamp being the minimum representable datetime — and
truncates to the first `MAX_ITEMS` entries; concretely, with
`MAX_ITEMS = 2` and three qualifying items dated 2025-01-03, 2025-01-01,
2025-01-02, the result is exactly the 2025-01-03 item followed by the
2025-01-02 item. -/
theorem C1_sort_and_truncate :
    (∀ cfg sources,
        build_feed cfg sources
          = (sortItems (collectItems cfg sources).items).take cfg.maxItems)
    ∧ (∀ l : List Item, (sortItems l).Pairwise fun a b => sortKey b ≤ sortKey a)
    ∧ (∀ (l : List Item) (k : Int),
        (sortItems l).filter (fun it => sortKey it == k)
          = l.filter (fun it => sortKey it == k))
    ∧ (∀ it : Item, it.published = none → sortKey it = toUTCMicros datetimeMin)
    ∧ build_feed scenCCfg scenCSources = [itemC3, itemC2] := by
  refine ⟨fun _ _ => rfl, sortItems_sorted, sortItems_stable, ?_, by decide⟩
  intro it h
  simp [sortKey, h]

/-- Witness for C1: an item without timestamp has the minimum sort key. -/
theorem C1_sort_and_truncate_witness :
    sortKey ⟨[], [], [], [], none⟩ = toUTCMicros datetimeMin :=
  C1_sort_and_truncate.2.2.2.1 ⟨[], [], [], [], none⟩ rfl

/-! ## C7 -/

/-- C7: the fingerprint is a deterministic function of title and link
alone — equal titles and equal links give equal fingerprints whatever
the other entry fields are — and hence a run over two sources that each
yield one qualifying entry with identical title and identical link
outputs exactly one item. -/
theorem C7_fingerprint_of_title_link :
    (∀ e1 e2 : Entry, entryTitle e1 = entryTitle e2 → entryLink e1 = entryLink e2 →
        fingerprint (entryTitle e1) (entryLink e1)
          = fingerprint (entryTitle e2) (entryLink e2))
    ∧ build_feed scenCfg scenASources = [itemA] := by
  refine ⟨?_, by decide⟩
  intro e1 e2 ht hl
  rw [fingerprint, fingerprint, ht, hl]

/-- Witness for C7: the two scenario A entries differ in summary and
timestamp but share title and link, hence share the fingerprint. -/
theorem C7_fingerprint_of_title_link_witness :
    fingerprint (entryTitle entA1) (entryLink entA1)
      = fingerprint (entryTitle entA2) (entryLink entA2) :=
  C7_fingerprint_of_title_link.1 entA1 entA2 rfl rfl

/-! ## C9 -/

theorem is_recent_true_isSome {maxAge now : Int} {p : Option PyDatetime}
    (h : is_recent maxAge now p = true) : p ≠ none := by
  cases p
  · simp [is_recent] at h
  · simp

/-- The per-entry step only appends items carrying a timestamp. -/
theorem processEntry_dated (cfg : Config) (source : Str) (st : PipeState) (e : Entry)
    (h : ∀ it ∈ st.items, it.published ≠ none) :
    ∀ it ∈ (processEntry cfg source st e).items, it.published ≠ none := by
  intro it hit
  simp only [processEntry] at hit
  split_ifs at hit with h1 h2 h3 h4
  · exact h it hit
  · exact h it hit
  · exact h it hit
  · rcases List.mem_append.mp hit with hmem | hmem
    · exact h it hmem
    · rw [List.mem_singleton] at hmem
      subst hmem
      have hrec : is_recent cfg.maxAgeDays (toUTCMicros cfg.now)
          (parse_date_from_entry cfg.dtparse cfg.now.year e) = true := by
        revert h3
        cases is_recent cfg.maxAgeDays (toUTCMicros cfg.now)
            (parse_date_from_entry cfg.dtparse cfg.now.year e) <;> simp
      exact is_recent_true_isSome hrec
  · exact h it hit

theorem foldlEntries_dated (cfg : Config) (source : Str) :
    ∀ (es : List Entry) (st : PipeState),
      (∀ it ∈ st.items, it.published ≠ none) →
      ∀ it ∈ (es.foldl (processEntry cfg source) st).items, it.published ≠ none
  | [], _, h => h
  | e :: es, st, h =>
    foldlEntries_dated cfg source es (processEntry cfg source st e)
      (processEntry_dated cfg source st e h)

theorem processSource_dated (cfg : Config) (st : PipeState) (src : Source)
    (h : ∀ it ∈ st.items, it.published ≠ none) :
    ∀ it ∈ (processSource cfg st src).items, it.published ≠ none := by
  cases hs : src.fetched with
  | none => simpa [processSource, hs] using h
  | some feed =>
    have h2 := foldlEntries_dated cfg (feed.ftitle.getD src.url) feed.entries st h
    simpa [processSource, hs] using h2

theorem foldlSources_dated (cfg : Config) :
    ∀ (ss : List Source) (st : PipeState),
      (∀ it ∈ st.items, it.published ≠ none) →
      ∀ it ∈ (ss.foldl (processSource cfg) st).items, it.published ≠ none
  | [], _, h => h
  | s :: ss, st, h =>
    foldlSources_dated cfg ss (processSource cfg st s) (processSource_dated cfg st s h)

/-- C9: every item of the working collection, and hence of the final
result, carries a present normalized timestamp, because the freshness
filter rejects every entry without one; the "undated items sort last"
clause and the "published timestamp omitted when absent" output branch
are therefore vacuous on reachable states. -/
theorem C9_every_item_dated :
    (∀ cfg sources, ∀ it ∈ (collectItems cfg sources).items, it.published ≠ none)
    ∧ (∀ cfg sources, ∀ it ∈ build_feed cfg sources, it.published ≠ none) := by
  have hcol : ∀ cfg sources, ∀ it ∈ (collectItems cfg sources).items,
      it.published ≠ none := by
    intro cfg sources
    exact foldlSources_dated cfg sources ⟨[], []⟩ (by intro it h; simp at h)
  refine ⟨hcol, ?_⟩
  intro cfg sources it hit
  unfold build_feed at hit
  have h1 : it ∈ sortItems (collectItems cfg sources).items :=
    List.mem_of_mem_take hit
  unfold sortItems at h1
  exact hcol cfg sources it ((List.mem_insertionSort itemLE).mp h1)

/-- Witness for C9 at the scenario A run. -/
theorem C9_every_item_dated_witness : itemA.published ≠ none :=
  C9_every_item_dated.2 scenCfg scenASources itemA (by decide)

/-! ## C10 -/

/-- C10: the fingerprint hashes the separator-free concatenation of
title and link, so distinct pairs with equal concatenation — such as
("ab", "c") and ("a", "bc") — collide, and in a run the second entry of
such a pair is rejected as a duplicate although its title and its link
both differ from the first: the scenario entries ("Türkei x", "y") and
("Türkei", " xy") yield a single output item. -/
theorem C10_fingerprint_collision :
    ((("ab".toList : Str), ("c".toList : Str)) ≠ (("a".toList : Str), ("bc".toList : Str))
      ∧ fingerprint ("ab".toList) ("c".toList) = fingerprint ("a".toList) ("bc".toList))
    ∧ (entX1 ≠ entX2
      ∧ entryTitle entX1 ≠ entryTitle entX2
      ∧ entryLink entX1 ≠ entryLink entX2
      ∧ fingerprint (entryTitle entX1) (entryLink entX1)
        = fingerprint (entryTitle entX2) (entryLink entX2))
    ∧ build_feed scenCfg scenXSources = [itemX1] :=
  ⟨⟨by decide, by decide⟩,
    ⟨by decide, by decide, by decide, by decide⟩,
    by decide⟩

end TurkeyFeed
